import Mathlib

/-
Verification of the conversion core of pdf2xls (src/pdf2xls/pdf2xls.py).

The module is a thin orchestration layer: a unit converter `mm_to_points`,
two sheet-writing helpers, and the routine `pdf_to_excel`, which validates
its arguments, opens a PDF through the pdfplumber collaborator, iterates a
page range extracting text and tables from a cropped view of each page,
builds a workbook, and saves it, catching five Python exception kinds at the
bottom and printing one line per failure.

The embedding below models the two external collaborators (pdfplumber and
openpyxl) as an explicit environment: a page carries its dimensions and its
two extraction functions on a crop box, each of which may raise (modelled by
`Except` carrying the message of the raised exception); the environment
carries the filesystem existence check, the outcome of opening the PDF, the
outcome of the workbook constructor and the outcome of saving.  Optional CLI
arguments that may arrive as Python `None` are modelled as `Option`.
Messages follow the source f-strings, except that single-quote characters
around interpolated values are omitted from the modelled message texts.
-/

set_option autoImplicit false

namespace Pdf2xls

/-- Table extracted from a page: a list of rows, each row a list of cells. -/
abbrev Table := List (List String)

/-- Crop box in points, in the argument order of `page.within_bbox` at
line 138 of the source: `(x0, top, x1, bottom)`. -/
structure CropBox where
  x0 : ℚ
  top : ℚ
  x1 : ℚ
  bottom : ℚ
  deriving DecidableEq, Repr

/-- Page of an open PDF document as seen through the pdfplumber collaborator:
fixed dimensions, plus the text and table extraction performed on the view
cropped to a given box.  Extraction may raise; the `Except` error carries the
message of the raised exception.  `extract_text` may return Python `None`,
modelled by `Option`. -/
structure Page where
  width : ℚ
  height : ℚ
  extractText : CropBox → Except String (Option String)
  extractTables : CropBox → Except String (List Table)

/-- Python exception kinds relevant to `pdf_to_excel`: the five kinds caught
by the handlers at lines 169-178 of the source, plus `TypeError` and
`AttributeError`, which have no handler there. -/
inductive PyError where
  | fileNotFound (msg : String)
  | valueError (msg : String)
  | indexError (msg : String)
  | ioError (msg : String)
  | runtimeError (msg : String)
  | typeError (msg : String)
  | attributeError (msg : String)
  deriving DecidableEq, Repr

/-- Environment of one run: the filesystem check `os.path.exists`, the
outcome of `pdfplumber.open` (the pages of the opened document, or the
message of the raised exception), the outcome of the `Workbook()`
constructor together with renaming its active sheet, and the outcome of
`workbook.save` on a given path. -/
structure Env where
  fileExists : String → Bool
  openPdf : String → Except String (List Page)
  newWorkbook : Except PyError Unit
  save : String → Except String Unit

/-- Cell write into a sheet: `(row, column, value)`, rows and columns
1-based as in openpyxl. -/
abbrev CellWrite := Nat × Nat × String

/-- Worksheet: its title and the cell writes performed on it, in order. -/
structure Sheet where
  name : String
  cells : List CellWrite
  deriving DecidableEq, Repr

/-- State threaded through the page loop of `pdf_to_excel`: the accumulated
`all_text` list and the table sheets created so far, in creation order. -/
structure LoopState where
  allText : List String
  tableSheets : List Sheet
  deriving DecidableEq, Repr

/-- Observable outcome of one call to `pdf_to_excel`: the lines printed, the
workbook saved (path and sheets, the text sheet first) if any, whether the
document was opened, whether its handle was closed before returning, and the
exception escaping the routine if its kind has no handler. -/
structure ConvResult where
  printed : List String
  saved : Option (String × List Sheet)
  opened : Bool
  closed : Bool
  escaped : Option PyError
  deriving DecidableEq, Repr

/-- Unit converter of the source, line 43: 1 mm = 2.83465 points. -/
def mm_to_points (mm : ℚ) : ℚ :=
  mm * 2.83465

/-- Helper for `write_text_to_sheet`, carrying the 1-based row counter of
`enumerate(text_data, start=1)`. -/
def writeTextAux : Nat → List String → List CellWrite
  | _, [] => []
  | i, line :: rest => (i, 1, line) :: writeTextAux (i + 1) rest

/-- Source `write_text_to_sheet` (line 57): each item of the list is written
to a new row, column 1, rows starting at 1. -/
def write_text_to_sheet (textData : List String) : List CellWrite :=
  writeTextAux 1 textData

/-- Helper for one row of `write_table_to_sheet`, carrying the fixed row
index and the 1-based column counter. -/
def writeRowAux : Nat → Nat → List String → List CellWrite
  | _, _, [] => []
  | r, c, v :: rest => (r, c, v) :: writeRowAux r (c + 1) rest

/-- Helper for `write_table_to_sheet`, carrying the 1-based row counter of
`enumerate(table, start=1)`. -/
def writeTableAux : Nat → Table → List CellWrite
  | _, [] => []
  | r, row :: rest => writeRowAux r 1 row ++ writeTableAux (r + 1) rest

/-- Source `write_table_to_sheet` (line 70): each sublist is written as a
row, cells row-major, rows and columns starting at 1. -/
def write_table_to_sheet (table : Table) : List CellWrite :=
  writeTableAux 1 table

/-- Python list indexing `l[i]`: non-negative indices count from the front,
negative indices from the back, anything else is an `IndexError`, modelled
as `none`. -/
def pyGet? {α : Type} (l : List α) (i : Int) : Option α :=
  if 0 ≤ i then l.get? i.toNat
  else if -(l.length : Int) ≤ i then l.get? ((l.length : Int) + i).toNat
  else none

/-- Python `str.lower`: lower-case every character. -/
def pyLower (s : String) : String :=
  ⟨s.data.map Char.toLower⟩

/-- Python `str.endswith`: the second string is a suffix of the first. -/
def pyEndsWith (s suffix : String) : Bool :=
  List.isSuffixOf suffix.data s.data

/-- Message of the `IndexError` re-raised at line 132 of the source for a
loop index `i` on a document of `n` pages. -/
def outOfRangeMsg (i : Int) (n : Nat) : String :=
  "Page " ++ toString (i + 1) ++ " is out of range. The PDF has "
    ++ toString n ++ " pages."

/-- Cropping box computed at line 138 of the source:
`(0, header_height, page.width, page_height - footer_height)`. -/
def cropBox (width height headerPts footerPts : ℚ) : CropBox :=
  ⟨0, headerPts, width, height - footerPts⟩

/-- Text block appended for loop index `i` at lines 142-144 of the source:
appended exactly when `page_text` is truthy, i.e. neither Python `None` nor
the empty string, prefixed with the 1-based page label. -/
def textEntryOf (i : Int) (pageText : Option String) : List String :=
  match pageText with
  | none => []
  | some t => if t = "" then [] else ["Page " ++ toString (i + 1) ++ ":\n" ++ t]

/-- Table sheets created for loop index `i`, helper carrying the 1-based
table counter of `enumerate(tables, start=1)` (lines 148-150). -/
def tableSheetsAux (i : Int) : Nat → List Table → List Sheet
  | _, [] => []
  | k, tbl :: rest =>
    ⟨"Table_Page_" ++ toString (i + 1) ++ "_" ++ toString k,
      write_table_to_sheet tbl⟩ :: tableSheetsAux i (k + 1) rest

/-- Table sheets created for loop index `i`, in detection order, named
`Table_Page_{i+1}_{k}` with `k` counting from 1. -/
def tableSheetsOf (i : Int) (tables : List Table) : List Sheet :=
  tableSheetsAux i 1 tables

/-- Body of one iteration of the page loop (lines 128-150): fetch the page
(an out-of-range index raises the `IndexError` message), build the crop box,
extract text and tables from the cropped view, and extend the loop state.
Any raised message is returned as the error. -/
def processPage (pages : List Page) (headerPts footerPts : ℚ) (i : Int)
    (st : LoopState) : Except String LoopState :=
  match pyGet? pages i with
  | none => .error (outOfRangeMsg i pages.length)
  | some page =>
    match page.extractText (cropBox page.width page.height headerPts footerPts) with
    | .error m => .error m
    | .ok pageText =>
      match page.extractTables (cropBox page.width page.height headerPts footerPts) with
      | .error m => .error m
      | .ok tables =>
        .ok { allText := st.allText ++ textEntryOf i pageText,
              tableSheets := st.tableSheets ++ tableSheetsOf i tables }

/-- Loop indices of `range(start_page - 1, end_page)` at line 128. -/
def pageIndices (startPage endPage : Int) : List Int :=
  (List.range (endPage - startPage + 1).toNat).map
    (fun (j : Nat) => startPage - 1 + (j : Int))

/-- The whole page loop, starting from an empty `all_text` and no table
sheets; the first raised message aborts the remaining pages. -/
def processPages (pages : List Page) (headerPts footerPts : ℚ)
    (startPage endPage : Int) : Except String LoopState :=
  (pageIndices startPage endPage).foldlM
    (fun st i => processPage pages headerPts footerPts i st) ⟨[], []⟩

/-- The handlers at lines 169-178 of the source: the five caught kinds map
to their printed line, the remaining kinds are not caught. -/
def caughtLine : PyError → Option String
  | .fileNotFound m => some ("File error: " ++ m)
  | .valueError m => some ("Value error: " ++ m)
  | .indexError m => some ("Index error: " ++ m)
  | .ioError m => some ("I/O error: " ++ m)
  | .runtimeError m => some ("Runtime error: " ++ m)
  | .typeError _ => none
  | .attributeError _ => none

/-- Outcome of `pdf_to_excel` when exception `e` reaches its bottom
handlers with the given open/close status of the document handle: a caught
kind prints its single line, any other kind escapes the routine. -/
def handleOuter (e : PyError) (opened closed : Bool) : ConvResult :=
  match caughtLine e with
  | some line =>
    { printed := [line], saved := none, opened := opened, closed := closed,
      escaped := none }
  | none =>
    { printed := [], saved := none, opened := opened, closed := closed,
      escaped := some e }

/-- Message of the `FileNotFoundError` raised at line 100 (quotes around the
path omitted). -/
def notFoundMsg (inp : String) : String :=
  "The input file " ++ inp ++ " does not exist."

/-- Message of the `ValueError` raised at line 102. -/
def badInputMsg : String :=
  "The input file must be a PDF."

/-- Message of the `ValueError` raised at line 106. -/
def badOutputMsg : String :=
  "The output file must have an .xlsx extension."

/-- Message of the `IOError` raised at line 116, wrapping the cause. -/
def openFailMsg (m : String) : String :=
  "Failed to open the PDF file: " ++ m

/-- Message of the `IOError` raised at line 165, wrapping the cause. -/
def saveFailMsg (m : String) : String :=
  "Failed to save the Excel file: " ++ m

/-- Message of the `RuntimeError` raised at line 153, wrapping whatever
exception aborted the page loop. -/
def wrapMsg (m : String) : String :=
  "Error processing PDF pages: " ++ m

/-- Message of the `AttributeError` raised by `None.lower()` when
`output_file` is Python `None` at line 105 (quotes omitted). -/
def attrLowerMsg : String :=
  "NoneType object has no attribute lower"

/-- Message of the `TypeError` raised by `None * 2.83465` when a height
argument is Python `None` at line 109 or 110 (quotes omitted). -/
def typeMulMsg : String :=
  "unsupported operand type for *: NoneType and float"

/-- Message of the `TypeError` raised by `None - 1` when `start_page` is
Python `None` at line 128 (quotes omitted). -/
def typeSubMsg : String :=
  "unsupported operand type for -: NoneType and int"

/-- Message of the `TypeError` raised by `range(_, None)` when `end_page`
is Python `None` at line 128 (quotes omitted). -/
def typeRangeMsg : String :=
  "NoneType object cannot be interpreted as an integer"

/-- Success line printed at line 167. -/
def successMsg (out : String) : String :=
  "PDF data successfully converted to " ++ out

/-- Content of the loop-carrying `try` at lines 126-151 of the source: the
`for i in range(start_page - 1, end_page)` statement.  A Python `None` in
either bound raises a `TypeError` when `range` is evaluated, which happens
inside this `try`. -/
def runLoop (start_page end_page : Option Int) (pages : List Page)
    (headerPts footerPts : ℚ) : Except String LoopState :=
  match start_page, end_page with
  | none, _ => .error typeSubMsg
  | some _, none => .error typeRangeMsg
  | some sp, some ep => processPages pages headerPts footerPts sp ep

/-- Part of `pdf_to_excel` from line 119 on, once the document is open: the
`Workbook()` constructor (whose failure skips the `finally`, leaving the
handle open), the page loop wrapped into a `RuntimeError` by the handler at
line 152 with the `finally` at line 155 closing the handle, then writing the
collected text into the first sheet and saving.  Every raised exception
reaches the bottom handlers, `handleOuter`. -/
def afterOpen (env : Env) (out : String) (start_page end_page : Option Int)
    (headerPts footerPts : ℚ) (pages : List Page) : ConvResult :=
  match env.newWorkbook with
  | .error e => handleOuter e true false
  | .ok _ =>
    match runLoop start_page end_page pages headerPts footerPts with
    | .error m => handleOuter (.runtimeError (wrapMsg m)) true true
    | .ok st =>
      match env.save out with
      | .error m => handleOuter (.ioError (saveFailMsg m)) true true
      | .ok _ =>
        { printed := [successMsg out],
          saved := some
            (out, ⟨"Text_Body", write_text_to_sheet st.allText⟩
              :: st.tableSheets),
          opened := true, closed := true, escaped := none }

/-- Embedding of the source routine `pdf_to_excel` (line 84), step for step:
existence check, input suffix check, output suffix check (an `Option` models
a Python `None` argument reaching the attribute access or the arithmetic),
unit conversion of both heights before the loop, opening the document, and
then `afterOpen` for everything past the open.  The bottom handlers of the
source are `handleOuter`. -/
def pdf_to_excel (env : Env) (input_file : String) (output_file : Option String)
    (start_page end_page : Option Int)
    (header_height_mm footer_height_mm : Option ℚ) : ConvResult :=
  if env.fileExists input_file = false then
    handleOuter (.fileNotFound (notFoundMsg input_file)) false false
  else if pyEndsWith (pyLower input_file) (".pdf") = false then
    handleOuter (.valueError badInputMsg) false false
  else
    match output_file with
    | none => handleOuter (.attributeError attrLowerMsg) false false
    | some out =>
      if pyEndsWith (pyLower out) (".xlsx") = false then
        handleOuter (.valueError badOutputMsg) false false
      else
        match header_height_mm with
        | none => handleOuter (.typeError typeMulMsg) false false
        | some hmm =>
          match footer_height_mm with
          | none => handleOuter (.typeError typeMulMsg) false false
          | some fmm =>
            match env.openPdf input_file with
            | .error m => handleOuter (.ioError (openFailMsg m)) false false
            | .ok pages =>
              afterOpen env out start_page end_page
                (mm_to_points hmm) (mm_to_points fmm) pages

/-- Exit status of `main` (line 182): the routine is called, then `main`
returns 0 unconditionally; when an exception escapes the routine there is no
normal return, modelled as `none`. -/
def main_exit (r : ConvResult) : Option Int :=
  match r.escaped with
  | some _ => none
  | none => some 0

/-- Text blocks contributed by loop index `i` in an error-free run: the
entry of the page fetched by Python indexing, built from the text extracted
on the crop box of that page. -/
def pageTextEntry (pages : List Page) (hp fp : ℚ) (i : Int) : List String :=
  match pyGet? pages i with
  | none => []
  | some page =>
    match page.extractText (cropBox page.width page.height hp fp) with
    | .error _ => []
    | .ok t => textEntryOf i t

/-- Table sheets contributed by loop index `i` in an error-free run, in
detection order. -/
def pageTableSheets (pages : List Page) (hp fp : ℚ) (i : Int) : List Sheet :=
  match pyGet? pages i with
  | none => []
  | some page =>
    match page.extractTables (cropBox page.width page.height hp fp) with
    | .error _ => []
    | .ok tables => tableSheetsOf i tables

/-- Expected `all_text` of an error-free run over the given loop indices,
in ascending processing order. -/
def expectedAllText (pages : List Page) (hp fp : ℚ) (idxs : List Int) : List String :=
  (idxs.map (pageTextEntry pages hp fp)).flatten

/-- Expected table sheets of an error-free run over the given loop indices:
pages in processing order, tables in detection order within each page. -/
def expectedTableSheets (pages : List Page) (hp fp : ℚ) (idxs : List Int) : List Sheet :=
  (idxs.map (pageTableSheets pages hp fp)).flatten

/-- Agreement of two pages on the crop region of the source: equal
dimensions, and equal extraction results on the box
`(0, mm_to_points header, width, height - mm_to_points footer)`.  Used to
state that the conversion consults the extraction functions only on exactly
that box. -/
def agreeOnCrop (hp fp : ℚ) (p q : Page) : Prop :=
  p.width = q.width ∧ p.height = q.height ∧
    p.extractText (cropBox p.width p.height hp fp)
      = q.extractText (cropBox q.width q.height hp fp) ∧
    p.extractTables (cropBox p.width p.height hp fp)
      = q.extractTables (cropBox q.width q.height hp fp)

/-- Sample page with text and one 2 by 2 table, for concrete runs. -/
def pageA : Page :=
  { width := 100, height := 200,
    extractText := fun _ => .ok (some ("alpha")),
    extractTables := fun _ => .ok [[["a", "b"], ["c", "d"]]] }

/-- Sample page with text and no tables, for concrete runs. -/
def pageB : Page :=
  { width := 100, height := 200,
    extractText := fun _ => .ok (some ("beta")),
    extractTables := fun _ => .ok [] }

/-- Sample page whose text extraction raises, for concrete runs. -/
def failPage : Page :=
  { width := 100, height := 200,
    extractText := fun _ => .error ("boom"),
    extractTables := fun _ => .ok [] }

/-- Environment where the input exists, opening yields the given pages, and
workbook construction and saving succeed. -/
def mkEnv (pages : List Page) : Env :=
  { fileExists := fun _ => true,
    openPdf := fun _ => .ok pages,
    newWorkbook := .ok (),
    save := fun _ => .ok () }

/-- Two-page environment for concrete runs. -/
def happyEnv : Env := mkEnv [pageA, pageB]

/-- One-page environment for concrete runs. -/
def onePageEnv : Env := mkEnv [pageA]

/-- Environment whose single page fails text extraction. -/
def failEnvA : Env := mkEnv [failPage]

/-- Environment whose second page fails text extraction. -/
def failEnvB : Env := mkEnv [pageB, failPage]

/-- Environment where the input file does not exist. -/
def missingEnv : Env :=
  { mkEnv [] with fileExists := fun _ => false }

/-- Environment where the workbook constructor raises. -/
def wbFailEnv : Env :=
  { mkEnv [pageA] with newWorkbook := .error (.typeError ("wb fail")) }

/-- The crop box of a 100 by 200 point page with a 10 mm header and a 5 mm
footer. -/
def boxW : CropBox :=
  cropBox 100 200 (mm_to_points 10) (mm_to_points 5)

/-- Page whose extraction functions answer only on `boxW` and raise on any
other box. -/
def cropPage1 : Page :=
  { width := 100, height := 200,
    extractText := fun b => if b = boxW then .ok (some ("T")) else .error ("off box"),
    extractTables := fun b => if b = boxW then .ok [] else .error ("off box") }

/-- Page whose extraction functions answer the same as `cropPage1` on `boxW`
but differ elsewhere. -/
def cropPage2 : Page :=
  { width := 100, height := 200,
    extractText := fun _ => .ok (some ("T")),
    extractTables := fun _ => .ok [] }

/-- Environment built on `cropPage1`. -/
def cropEnv1 : Env := mkEnv [cropPage1]

/-- Environment built on `cropPage2`. -/
def cropEnv2 : Env := mkEnv [cropPage2]

/-- Two-page list for the negative start page runs. -/
def negPages : List Page := [pageA, pageB]

@[simp] lemma handleOuter_opened (e : PyError) (o c : Bool) :
    (handleOuter e o c).opened = o := by
  rcases h : caughtLine e with _ | line <;> simp [handleOuter, h]

@[simp] lemma handleOuter_closed (e : PyError) (o c : Bool) :
    (handleOuter e o c).closed = c := by
  rcases h : caughtLine e with _ | line <;> simp [handleOuter, h]

@[simp] lemma handleOuter_saved (e : PyError) (o c : Bool) :
    (handleOuter e o c).saved = none := by
  rcases h : caughtLine e with _ | line <;> simp [handleOuter, h]

lemma handleOuter_escaped_caught {e e2 : PyError} {o c : Bool}
    (h : (handleOuter e o c).escaped = some e2) : caughtLine e2 = none := by
  rcases hc : caughtLine e with _ | line
  · simp [handleOuter, hc] at h
    subst h
    exact hc
  · simp [handleOuter, hc] at h

lemma handleOuter_printed_len {e : PyError} {o c : Bool}
    (h : (handleOuter e o c).escaped = none) :
    (handleOuter e o c).printed.length = 1 := by
  rcases hc : caughtLine e with _ | line <;> simp [handleOuter, hc] at h ⊢

lemma main_exit_of_escaped_none {r : ConvResult} (h : r.escaped = none) :
    main_exit r = some 0 := by
  unfold main_exit
  rw [h]

lemma processPage_ok {pages : List Page} {hp fp : ℚ} {i : Int}
    {st₀ st₁ : LoopState} (h : processPage pages hp fp i st₀ = .ok st₁) :
    st₁.allText = st₀.allText ++ pageTextEntry pages hp fp i ∧
      st₁.tableSheets = st₀.tableSheets ++ pageTableSheets pages hp fp i := by
  unfold processPage at h
  unfold pageTextEntry pageTableSheets
  rcases hg : pyGet? pages i with _ | page
  · simp only [hg] at h
    exact absurd h (by simp)
  · simp only [hg] at h ⊢
    rcases ht : page.extractText (cropBox page.width page.height hp fp) with m | t
    · simp only [ht] at h
      exact absurd h (by simp)
    · simp only [ht] at h ⊢
      rcases htb : page.extractTables (cropBox page.width page.height hp fp) with m | tbls
      · simp only [htb] at h
        exact absurd h (by simp)
      · simp only [htb] at h ⊢
        simp only [Except.ok.injEq] at h
        subst h
        exact ⟨rfl, rfl⟩

lemma foldlM_processPage_ok (pages : List Page) (hp fp : ℚ) (idxs : List Int) :
    ∀ st₀ st : LoopState,
      idxs.foldlM (fun s i => processPage pages hp fp i s) st₀ = .ok st →
      st.allText = st₀.allText ++ expectedAllText pages hp fp idxs ∧
        st.tableSheets = st₀.tableSheets ++ expectedTableSheets pages hp fp idxs := by
  induction idxs with
  | nil =>
    intro st₀ st h
    simp only [List.foldlM_nil, pure, Except.pure, Except.ok.injEq] at h
    subst h
    simp [expectedAllText, expectedTableSheets]
  | cons i rest ih =>
    intro st₀ st h
    rw [List.foldlM_cons] at h
    rcases h1 : processPage pages hp fp i st₀ with m | st₁
    · rw [h1] at h
      simp [Bind.bind, Except.bind] at h
    · rw [h1] at h
      simp only [Bind.bind, Except.bind] at h
      obtain ⟨ha, hb⟩ := ih st₁ st h
      obtain ⟨ha1, hb1⟩ := processPage_ok h1
      refine ⟨?_, ?_⟩
      · rw [ha, ha1, List.append_assoc]
        simp [expectedAllText]
      · rw [hb, hb1, List.append_assoc]
        simp [expectedTableSheets]

lemma processPages_ok_eq {pages : List Page} {hp fp : ℚ} {sp ep : Int}
    {st : LoopState} (h : processPages pages hp fp sp ep = .ok st) :
    st.allText = expectedAllText pages hp fp (pageIndices sp ep) ∧
      st.tableSheets = expectedTableSheets pages hp fp (pageIndices sp ep) := by
  have := foldlM_processPage_ok pages hp fp (pageIndices sp ep) ⟨[], []⟩ st h
  simpa using this

lemma writeTextAux_get (l : List String) :
    ∀ n j : Nat, (writeTextAux n l).get? j = (l.get? j).map (fun v => (n + j, 1, v)) := by
  induction l with
  | nil => intro n j; simp [writeTextAux]
  | cons a t ih =>
    intro n j
    cases j with
    | zero => simp [writeTextAux]
    | succ k =>
      simp only [writeTextAux, List.get?_cons_succ, ih (n + 1) k]
      have : n + 1 + k = n + (k + 1) := by omega
      rw [this]

lemma write_text_to_sheet_get (l : List String) (j : Nat) :
    (write_text_to_sheet l).get? j = (l.get? j).map (fun v => (j + 1, 1, v)) := by
  rw [write_text_to_sheet, writeTextAux_get l 1 j]
  have : 1 + j = j + 1 := by omega
  rw [this]

lemma writeRowAux_mem (row : List String) :
    ∀ (c₀ : Nat) (r₀ r c : Nat) (v : String),
      ((r, c, v) ∈ writeRowAux r₀ c₀ row) ↔
        (r = r₀ ∧ ∃ j, row.get? j = some v ∧ c = c₀ + j) := by
  induction row with
  | nil => intro c₀ r₀ r c v; simp [writeRowAux]
  | cons a t ih =>
    intro c₀ r₀ r c v
    simp only [writeRowAux, List.mem_cons, ih (c₀ + 1)]
    constructor
    · rintro (heq | ⟨hr, j, hj, hc⟩)
      · simp only [Prod.mk.injEq] at heq
        obtain ⟨h1, h2, h3⟩ := heq
        exact ⟨h1, 0, by simp [h3], by omega⟩
      · exact ⟨hr, j + 1, by simpa using hj, by omega⟩
    · rintro ⟨hr, j, hj, hc⟩
      cases j with
      | zero =>
        left
        simp only [List.get?_cons_zero, Option.some.injEq] at hj
        subst hr
        subst hj
        have : c = c₀ := by omega
        subst this
        rfl
      | succ k =>
        right
        exact ⟨hr, k, by simpa using hj, by omega⟩

lemma writeTableAux_mem (tbl : Table) :
    ∀ (r₀ : Nat) (r c : Nat) (v : String),
      ((r, c, v) ∈ writeTableAux r₀ tbl) ↔
        ∃ i row, tbl.get? i = some row ∧ r = r₀ + i ∧
          ∃ j, row.get? j = some v ∧ c = 1 + j := by
  induction tbl with
  | nil => intro r₀ r c v; simp [writeTableAux]
  | cons row rest ih =>
    intro r₀ r c v
    simp only [writeTableAux, List.mem_append, writeRowAux_mem, ih (r₀ + 1)]
    constructor
    · rintro (⟨hr, j, hj, hc⟩ | ⟨i, row2, hi, hr, j, hj, hc⟩)
      · exact ⟨0, row, by simp, by omega, j, hj, hc⟩
      · exact ⟨i + 1, row2, by simpa using hi, by omega, j, hj, hc⟩
    · rintro ⟨i, row2, hi, hr, j, hj, hc⟩
      cases i with
      | zero =>
        left
        simp only [List.get?_cons_zero, Option.some.injEq] at hi
        subst hi
        exact ⟨by omega, j, hj, hc⟩
      | succ k =>
        right
        exact ⟨k, row2, by simpa using hi, by omega, j, hj, hc⟩

lemma write_table_to_sheet_mem (tbl : Table) (r c : Nat) (v : String) :
    ((r + 1, c + 1, v) ∈ write_table_to_sheet tbl) ↔
      ∃ row, tbl.get? r = some row ∧ row.get? c = some v := by
  rw [write_table_to_sheet, writeTableAux_mem]
  constructor
  · rintro ⟨i, row, hi, hr, j, hj, hc⟩
    have hir : i = r := by omega
    have hjc : j = c := by omega
    subst hir
    subst hjc
    exact ⟨row, hi, hj⟩
  · rintro ⟨row, hr, hc⟩
    exact ⟨r, row, hr, by omega, c, hc, by omega⟩

lemma forall₂_pyGet {R : Page → Page → Prop} {ps qs : List Page}
    (h : List.Forall₂ R ps qs) (i : Int) :
    (pyGet? ps i = none ∧ pyGet? qs i = none) ∨
      ∃ p q, pyGet? ps i = some p ∧ pyGet? qs i = some q ∧ R p q := by
  have hget : ∀ n : Nat,
      (ps.get? n = none ∧ qs.get? n = none) ∨
        ∃ p q, ps.get? n = some p ∧ qs.get? n = some q ∧ R p q := by
    intro n
    induction h generalizing n with
    | nil => left; simp
    | cons hR hF ih =>
      cases n with
      | zero => right; exact ⟨_, _, rfl, rfl, hR⟩
      | succ k => simpa using ih k
  have hlen : ps.length = qs.length := h.length_eq
  unfold pyGet?
  by_cases h0 : 0 ≤ i
  · simp only [if_pos h0]
    exact hget i.toNat
  · simp only [if_neg h0]
    rw [← hlen]
    by_cases h1 : -((ps.length : Nat) : Int) ≤ i
    · simp only [if_pos h1]
      exact hget _
    · simp only [if_neg h1]
      left
      simp

lemma processPage_agree {hp fp : ℚ} {ps qs : List Page}
    (h : List.Forall₂ (agreeOnCrop hp fp) ps qs) (i : Int) (st : LoopState) :
    processPage ps hp fp i st = processPage qs hp fp i st := by
  rcases forall₂_pyGet h i with ⟨h1, h2⟩ | ⟨p, q, h1, h2, hW, hH, hT, hTb⟩
  · unfold processPage
    simp only [h1, h2, h.length_eq]
  · unfold processPage
    simp only [h1, h2]
    rw [← hT, ← hTb]

lemma processPages_agree {hp fp : ℚ} {ps qs : List Page}
    (h : List.Forall₂ (agreeOnCrop hp fp) ps qs) (sp ep : Int) :
    processPages ps hp fp sp ep = processPages qs hp fp sp ep := by
  unfold processPages
  have hfun : (fun (st : LoopState) (i : Int) => processPage ps hp fp i st)
      = fun (st : LoopState) (i : Int) => processPage qs hp fp i st := by
    funext st i
    exact processPage_agree h i st
  rw [hfun]

lemma runLoop_agree {hp fp : ℚ} {ps qs : List Page}
    (h : List.Forall₂ (agreeOnCrop hp fp) ps qs) (sp ep : Option Int) :
    runLoop sp ep ps hp fp = runLoop sp ep qs hp fp := by
  unfold runLoop
  rcases sp with _ | s
  · rfl
  · rcases ep with _ | e
    · rfl
    · exact processPages_agree h s e

lemma afterOpen_agree {env₁ env₂ : Env} {hp fp : ℚ} {ps qs : List Page}
    (hwb : env₂.newWorkbook = env₁.newWorkbook) (hsv : env₂.save = env₁.save)
    (h : List.Forall₂ (agreeOnCrop hp fp) ps qs) (out : String) (sp ep : Option Int) :
    afterOpen env₁ out sp ep hp fp ps = afterOpen env₂ out sp ep hp fp qs := by
  unfold afterOpen
  rw [hwb, hsv, runLoop_agree h sp ep]

lemma pdf_to_excel_shape (env : Env) (inp : String) (outf : Option String)
    (sp ep : Option Int) (hm fm : Option ℚ) :
    (∃ e o c, pdf_to_excel env inp outf sp ep hm fm = handleOuter e o c) ∨
      ∃ out sheets, pdf_to_excel env inp outf sp ep hm fm =
        { printed := [successMsg out], saved := some (out, sheets),
          opened := true, closed := true, escaped := none } := by
  unfold pdf_to_excel afterOpen
  repeat' split
  all_goals first
    | exact Or.inl ⟨_, _, _, rfl⟩
    | exact Or.inr ⟨_, _, rfl⟩

lemma pdf_to_excel_close_shape (env : Env) (inp : String) (outf : Option String)
    (sp ep : Option Int) (hm fm : Option ℚ) :
    ((pdf_to_excel env inp outf sp ep hm fm).opened = false ∧
        (pdf_to_excel env inp outf sp ep hm fm).closed = false) ∨
      (pdf_to_excel env inp outf sp ep hm fm).closed = true ∨
      (env.newWorkbook ≠ Except.ok () ∧
        (pdf_to_excel env inp outf sp ep hm fm).opened = true ∧
        (pdf_to_excel env inp outf sp ep hm fm).closed = false) := by
  unfold pdf_to_excel afterOpen
  repeat' split
  all_goals simp_all

lemma run_success_eq (env : Env) (inp out : String) (sp ep : Int) (hm fm : ℚ)
    (pages : List Page) (st : LoopState)
    (hfe : env.fileExists inp = true)
    (hpdf : pyEndsWith (pyLower inp) (".pdf") = true)
    (hout : pyEndsWith (pyLower out) (".xlsx") = true)
    (hop : env.openPdf inp = .ok pages)
    (hwb : env.newWorkbook = .ok ())
    (hloop : processPages pages (mm_to_points hm) (mm_to_points fm) sp ep = .ok st)
    (hsave : env.save out = .ok ()) :
    pdf_to_excel env inp (some out) (some sp) (some ep) (some hm) (some fm)
      = { printed := [successMsg out],
          saved := some (out, ⟨"Text_Body", write_text_to_sheet st.allText⟩
            :: st.tableSheets),
          opened := true, closed := true, escaped := none } := by
  simp [pdf_to_excel, afterOpen, runLoop, hfe, hpdf, hout, hop, hwb, hloop, hsave]

/-- C1: on a well-formed request whose page range exceeds the page count the
conversion aborts before further pages and never saves the workbook, and the
out-of-range message does carry the requested page number and the actual
page count; but the `IndexError` raised by the page fetch is re-caught by
the blanket handler around the loop and re-raised as `RuntimeError`, so the
failure is reported as the unexpected-failure kind (a `Runtime error:` line)
instead of the out-of-range kind (an `Index error:` line, whose dedicated
handler at line 173 of the source is unreachable from this path).  This
theorem evaluates the embedded code on the failing input: a one-page
document with `start_page = 1`, `end_page = 2`. -/
theorem out_of_range_wrapped_runtime :
    pdf_to_excel onePageEnv ("in.pdf") (some ("out.xlsx")) (some 1) (some 2) (some 0) (some 0)
      = { printed := ["Runtime error: " ++ wrapMsg (outOfRangeMsg 1 1)], saved := none,
          opened := true, closed := true, escaped := none } := by
  decide

/-- C2 counterexample: when the `Workbook()` constructor raises, the
document has been opened but the handle is never closed, because the
`try/finally` that closes it only starts after the workbook is created;
this refutes the claim that the handle is released on every exit path. -/
theorem workbook_failure_leaks_handle :
    (pdf_to_excel wbFailEnv ("in.pdf") (some ("out.xlsx")) (some 1) (some 1) (some 0) (some 0)).opened
        = true
    ∧ (pdf_to_excel wbFailEnv ("in.pdf") (some ("out.xlsx")) (some 1) (some 1) (some 0) (some 0)).closed
        = false := by
  decide

/-- C2 (amended): in every run in which the workbook constructor succeeds,
an opened document handle is closed before the conversion routine returns —
on normal completion, on failures raised during the page loop, and on save
failures.  The guarantee excludes a failure between opening the document
and entering the page loop (the workbook constructor), where the source
leaks the handle (see the counterexample). -/
theorem handle_released_after_workbook (env : Env) (inp : String) (outf : Option String)
    (sp ep : Option Int) (hm fm : Option ℚ)
    (hwb : env.newWorkbook = .ok ())
    (ho : (pdf_to_excel env inp outf sp ep hm fm).opened = true) :
    (pdf_to_excel env inp outf sp ep hm fm).closed = true := by
  rcases pdf_to_excel_close_shape env inp outf sp ep hm fm with ⟨h1, h2⟩ | h | ⟨hne, h⟩
  · rw [ho] at h1
    exact absurd h1 (by simp)
  · exact h
  · exact absurd hwb hne

/-- C2 witness: a concrete successful run opens the document and closes it. -/
theorem handle_released_after_workbook_witness :
    (pdf_to_excel happyEnv ("in.pdf") (some ("out.xlsx")) (some 1) (some 2) (some 0) (some 0)).opened
        = true
    ∧ (pdf_to_excel happyEnv ("in.pdf") (some ("out.xlsx")) (some 1) (some 2) (some 0) (some 0)).closed
        = true :=
  ⟨by decide,
    handle_released_after_workbook happyEnv ("in.pdf") (some ("out.xlsx"))
      (some 1) (some 2) (some 0) (some 0) rfl (by decide)⟩

/-- C3: the three validations run before any file is opened (the result
records the document as never opened), each failure maps to its distinct
error kind — missing input to the file-not-found kind, an existing input
without a case-insensitive `.pdf` suffix to the value-error kind, an output
without a case-insensitive `.xlsx` suffix to the value-error kind — and the
existence check precedes the input-suffix check: a missing input reports
`File error` regardless of either suffix. -/
theorem validation_order (env : Env) (inp out : String) (sp ep : Option Int)
    (hm fm : Option ℚ) :
    (env.fileExists inp = false →
      pdf_to_excel env inp (some out) sp ep hm fm
        = { printed := ["File error: " ++ notFoundMsg inp], saved := none,
            opened := false, closed := false, escaped := none })
    ∧ (env.fileExists inp = true → pyEndsWith (pyLower inp) (".pdf") = false →
      pdf_to_excel env inp (some out) sp ep hm fm
        = { printed := ["Value error: " ++ badInputMsg], saved := none,
            opened := false, closed := false, escaped := none })
    ∧ (env.fileExists inp = true → pyEndsWith (pyLower inp) (".pdf") = true →
      pyEndsWith (pyLower out) (".xlsx") = false →
      pdf_to_excel env inp (some out) sp ep hm fm
        = { printed := ["Value error: " ++ badOutputMsg], saved := none,
            opened := false, closed := false, escaped := none }) := by
  refine ⟨fun h1 => ?_, fun h1 h2 => ?_, fun h1 h2 h3 => ?_⟩
  · simp [pdf_to_excel, h1, handleOuter, caughtLine]
  · simp [pdf_to_excel, h1, h2, handleOuter, caughtLine]
  · simp [pdf_to_excel, h1, h2, h3, handleOuter, caughtLine]

/-- C3 witness: the three validation failures on concrete requests — a
missing input, an existing `.txt` input, and a `.csv` output. -/
theorem validation_order_witness :
    pdf_to_excel missingEnv ("in.pdf") (some ("out.xlsx")) (some 1) (some 1) (some 0) (some 0)
      = { printed := ["File error: " ++ notFoundMsg ("in.pdf")], saved := none,
          opened := false, closed := false, escaped := none }
    ∧ pdf_to_excel happyEnv ("report.txt") (some ("out.xlsx")) (some 1) (some 1) (some 0) (some 0)
      = { printed := ["Value error: " ++ badInputMsg], saved := none,
          opened := false, closed := false, escaped := none }
    ∧ pdf_to_excel happyEnv ("in.pdf") (some ("out.csv")) (some 1) (some 1) (some 0) (some 0)
      = { printed := ["Value error: " ++ badOutputMsg], saved := none,
          opened := false, closed := false, escaped := none } :=
  ⟨(validation_order missingEnv ("in.pdf") ("out.xlsx") (some 1) (some 1) (some 0) (some 0)).1
      rfl,
    (validation_order happyEnv ("report.txt") ("out.xlsx") (some 1) (some 1) (some 0) (some 0)).2.1
      rfl (by decide),
    (validation_order happyEnv ("in.pdf") ("out.csv") (some 1) (some 1) (some 0) (some 0)).2.2
      rfl (by decide) (by decide)⟩

/-- C7: whenever the failure of a run is classified into one of the five
caught kinds, the conversion routine catches it (nothing with a handled
kind ever escapes), and when nothing escapes exactly one descriptive line
is printed and the program's normal path returns exit status 0, whether or
not the conversion succeeded. -/
theorem errors_caught_and_exit_zero (env : Env) (inp : String) (outf : Option String)
    (sp ep : Option Int) (hm fm : Option ℚ) :
    (∀ e, (pdf_to_excel env inp outf sp ep hm fm).escaped = some e → caughtLine e = none)
    ∧ ((pdf_to_excel env inp outf sp ep hm fm).escaped = none →
        (pdf_to_excel env inp outf sp ep hm fm).printed.length = 1
        ∧ main_exit (pdf_to_excel env inp outf sp ep hm fm) = some 0) := by
  rcases pdf_to_excel_shape env inp outf sp ep hm fm with ⟨e, o, c, hr⟩ | ⟨out, sheets, hr⟩
  · rw [hr]
    constructor
    · intro e2 h2
      exact handleOuter_escaped_caught h2
    · intro h
      exact ⟨handleOuter_printed_len h, main_exit_of_escaped_none h⟩
  · rw [hr]
    constructor
    · intro e2 h2
      simp at h2
    · intro h
      exact ⟨rfl, rfl⟩

/-- C7 witness: a concrete successful run prints exactly one line and the
program exits with status 0. -/
theorem errors_caught_and_exit_zero_witness :
    (pdf_to_excel happyEnv ("in.pdf") (some ("out.xlsx")) (some 1) (some 2) (some 0) (some 0)).printed.length
        = 1
    ∧ main_exit (pdf_to_excel happyEnv ("in.pdf") (some ("out.xlsx")) (some 1) (some 2) (some 0) (some 0))
        = some 0 :=
  (errors_caught_and_exit_zero happyEnv ("in.pdf") (some ("out.xlsx"))
      (some 1) (some 2) (some 0) (some 0)).2 (by decide)

/-- C4: the conversion consults each page's extraction functions only on the
crop box `(left=0, top=mm_to_points header, right=page.width,
bottom=page.height - mm_to_points footer)` — two environments whose pages
agree in dimensions and in extraction results on exactly that box (see
`agreeOnCrop` and `cropBox`) produce identical conversion results — and the
mm-to-points conversion is the pure total map `mm * 2.83465`, applied to
the header and footer heights before the page loop. -/
theorem crop_region_spec (env₁ env₂ : Env) (inp out : String) (sp ep : Int)
    (hm fm : ℚ) (pages₁ pages₂ : List Page)
    (hfe : env₂.fileExists = env₁.fileExists)
    (hwb : env₂.newWorkbook = env₁.newWorkbook)
    (hsv : env₂.save = env₁.save)
    (hop₁ : env₁.openPdf inp = .ok pages₁)
    (hop₂ : env₂.openPdf inp = .ok pages₂)
    (hag : List.Forall₂ (agreeOnCrop (mm_to_points hm) (mm_to_points fm)) pages₁ pages₂) :
    pdf_to_excel env₁ inp (some out) (some sp) (some ep) (some hm) (some fm)
      = pdf_to_excel env₂ inp (some out) (some sp) (some ep) (some hm) (some fm)
    ∧ ∀ x : ℚ, mm_to_points x = x * 2.83465 := by
  refine ⟨?_, fun x => rfl⟩
  by_cases h1 : env₁.fileExists inp = false
  · simp [pdf_to_excel, hfe, h1]
  · by_cases h2 : pyEndsWith (pyLower inp) (".pdf") = false
    · simp [pdf_to_excel, hfe, h1, h2]
    · by_cases h3 : pyEndsWith (pyLower out) (".xlsx") = false
      · simp [pdf_to_excel, hfe, h1, h2, h3]
      · simp [pdf_to_excel, hfe, h1, h2, h3, hop₁, hop₂]
        exact afterOpen_agree hwb hsv hag out (some sp) (some ep)

/-- C4 witness: two concrete environments whose single pages agree only on
the claimed crop box (one answers `off box` anywhere else) convert
identically. -/
theorem crop_region_spec_witness :
    pdf_to_excel cropEnv1 ("in.pdf") (some ("out.xlsx")) (some 1) (some 1) (some 10) (some 5)
      = pdf_to_excel cropEnv2 ("in.pdf") (some ("out.xlsx")) (some 1) (some 1) (some 10) (some 5)
    ∧ ∀ x : ℚ, mm_to_points x = x * 2.83465 :=
  crop_region_spec cropEnv1 cropEnv2 ("in.pdf") ("out.xlsx") 1 1 10 5
    [cropPage1] [cropPage2] rfl rfl rfl rfl rfl
    (List.Forall₂.cons
      ⟨rfl, rfl, by simp [cropPage1, cropPage2, boxW], by simp [cropPage1, cropPage2, boxW]⟩
      List.Forall₂.nil)

/-- C5: in every successful run the saved workbook is the `Text_Body` sheet
first, followed by the table sheets in deterministic order — pages in
ascending processing order, tables in detection order within each page,
the sheet of the table at 1-based position `k` of the page at loop index
`i` named `Table_Page_{i+1}_{k}` (see `tableSheetsOf`) — and a table sheet
holds the table's cells verbatim, row-major, starting at row 1, column 1:
cell `(r+1, c+1)` holds `v` exactly when row `r`, column `c` (0-based) of
the table is `v`. -/
theorem table_sheets_spec (env : Env) (inp out : String) (sp ep : Int) (hm fm : ℚ)
    (pages : List Page) (st : LoopState)
    (hfe : env.fileExists inp = true)
    (hpdf : pyEndsWith (pyLower inp) (".pdf") = true)
    (hout : pyEndsWith (pyLower out) (".xlsx") = true)
    (hop : env.openPdf inp = .ok pages)
    (hwb : env.newWorkbook = .ok ())
    (hloop : processPages pages (mm_to_points hm) (mm_to_points fm) sp ep = .ok st)
    (hsave : env.save out = .ok ()) :
    (pdf_to_excel env inp (some out) (some sp) (some ep) (some hm) (some fm)).saved
      = some (out, ⟨"Text_Body", write_text_to_sheet st.allText⟩
          :: expectedTableSheets pages (mm_to_points hm) (mm_to_points fm) (pageIndices sp ep))
    ∧ ∀ (tbl : Table) (r c : Nat) (v : String),
        ((r + 1, c + 1, v) ∈ write_table_to_sheet tbl ↔
          ∃ row, tbl.get? r = some row ∧ row.get? c = some v) := by
  constructor
  · rw [run_success_eq env inp out sp ep hm fm pages st hfe hpdf hout hop hwb hloop hsave]
    rw [← (processPages_ok_eq hloop).2]
  · exact fun tbl r c v => write_table_to_sheet_mem tbl r c v

/-- Loop state of the concrete two-page run used by the C5 and C6
witnesses. -/
def wSt : LoopState :=
  { allText := ["Page 1:\nalpha", "Page 2:\nbeta"],
    tableSheets :=
      [⟨"Table_Page_1_1", [(1, 1, "a"), (1, 2, "b"), (2, 1, "c"), (2, 2, "d")]⟩] }

/-- C5 witness: the concrete two-page run saves `Text_Body` first followed
by the one table sheet of page 1, and the verbatim-cell property holds. -/
theorem table_sheets_spec_witness :
    (pdf_to_excel happyEnv ("in.pdf") (some ("out.xlsx")) (some 1) (some 2) (some 0) (some 0)).saved
      = some (("out.xlsx"), ⟨"Text_Body", write_text_to_sheet wSt.allText⟩
          :: expectedTableSheets [pageA, pageB] (mm_to_points 0) (mm_to_points 0) (pageIndices 1 2))
    ∧ ∀ (tbl : Table) (r c : Nat) (v : String),
        ((r + 1, c + 1, v) ∈ write_table_to_sheet tbl ↔
          ∃ row, tbl.get? r = some row ∧ row.get? c = some v) :=
  table_sheets_spec happyEnv ("in.pdf") ("out.xlsx") 1 2 0 0 [pageA, pageB] wSt
    rfl (by decide) (by decide) rfl rfl (by rfl) rfl

/-- C6: in every successful run the `Text_Body` sheet (first sheet of the
saved workbook) holds the accumulated text list, whose entries are exactly
the `"Page {i}:\n{text}"` blocks of the pages whose extracted text is
non-empty, in ascending processing order (see `expectedAllText` and
`textEntryOf`); the list is written with entry `j` (0-based) at row `j+1`,
column 1; and a block is contributed if and only if the extracted text is
neither absent nor empty. -/
theorem text_body_spec (env : Env) (inp out : String) (sp ep : Int) (hm fm : ℚ)
    (pages : List Page) (st : LoopState)
    (hfe : env.fileExists inp = true)
    (hpdf : pyEndsWith (pyLower inp) (".pdf") = true)
    (hout : pyEndsWith (pyLower out) (".xlsx") = true)
    (hop : env.openPdf inp = .ok pages)
    (hwb : env.newWorkbook = .ok ())
    (hloop : processPages pages (mm_to_points hm) (mm_to_points fm) sp ep = .ok st)
    (hsave : env.save out = .ok ()) :
    (pdf_to_excel env inp (some out) (some sp) (some ep) (some hm) (some fm)).saved
      = some (out, ⟨"Text_Body",
          write_text_to_sheet
            (expectedAllText pages (mm_to_points hm) (mm_to_points fm) (pageIndices sp ep))⟩
          :: st.tableSheets)
    ∧ (∀ (l : List String) (j : Nat),
        (write_text_to_sheet l).get? j = (l.get? j).map (fun v => (j + 1, 1, v)))
    ∧ (∀ (i : Int) (res : Option String),
        textEntryOf i res ≠ [] ↔ ∃ t, res = some t ∧ t ≠ "") := by
  refine ⟨?_, write_text_to_sheet_get, ?_⟩
  · rw [run_success_eq env inp out sp ep hm fm pages st hfe hpdf hout hop hwb hloop hsave]
    rw [← (processPages_ok_eq hloop).1]
  · intro i res
    rcases res with _ | t
    · simp [textEntryOf]
    · by_cases ht : t = "" <;> simp [textEntryOf, ht]

/-- C6 witness: the concrete two-page run writes the two page blocks in
page order into `Text_Body`, and the row-placement and non-emptiness
properties hold. -/
theorem text_body_spec_witness :
    (pdf_to_excel happyEnv ("in.pdf") (some ("out.xlsx")) (some 1) (some 2) (some 0) (some 0)).saved
      = some (("out.xlsx"), ⟨"Text_Body",
          write_text_to_sheet
            (expectedAllText [pageA, pageB] (mm_to_points 0) (mm_to_points 0) (pageIndices 1 2))⟩
          :: wSt.tableSheets)
    ∧ (∀ (l : List String) (j : Nat),
        (write_text_to_sheet l).get? j = (l.get? j).map (fun v => (j + 1, 1, v)))
    ∧ (∀ (i : Int) (res : Option String),
        textEntryOf i res ≠ [] ↔ ∃ t, res = some t ∧ t ≠ "") :=
  text_body_spec happyEnv ("in.pdf") ("out.xlsx") 1 2 0 0 [pageA, pageB] wSt
    rfl (by decide) (by decide) rfl rfl (by rfl) rfl

/-- C8 counterexample: the wrapper added by the handler around the page
loop is the fixed text `Error processing PDF pages: {message}` and does not
identify the page being processed — two runs that fail during different
pages (page 1 of a one-page document; page 2 of a two-page document) with
the same underlying message print identical lines. -/
theorem wrap_lacks_page_identity :
    (pdf_to_excel failEnvA ("in.pdf") (some ("out.xlsx")) (some 1) (some 1) (some 0) (some 0)).printed
      = ["Runtime error: " ++ wrapMsg ("boom")]
    ∧ (pdf_to_excel failEnvB ("in.pdf") (some ("out.xlsx")) (some 1) (some 2) (some 0) (some 0)).printed
      = ["Runtime error: " ++ wrapMsg ("boom")] := by
  decide

/-- C8 (amended): every error raised while iterating pages is caught by the
handler around the loop, wrapped into a `RuntimeError` whose message is the
fixed wrapper `Error processing PDF pages: ` followed by the underlying
message — context naming the page-processing phase but not the specific
page — and reported as a single `Runtime error:` line (the
unexpected-failure kind), never escaping the routine and never saving. -/
theorem loop_error_wrapped (env : Env) (inp out : String) (sp ep : Int) (hm fm : ℚ)
    (pages : List Page) (m : String)
    (hfe : env.fileExists inp = true)
    (hpdf : pyEndsWith (pyLower inp) (".pdf") = true)
    (hout : pyEndsWith (pyLower out) (".xlsx") = true)
    (hop : env.openPdf inp = .ok pages)
    (hwb : env.newWorkbook = .ok ())
    (hloop : processPages pages (mm_to_points hm) (mm_to_points fm) sp ep = .error m) :
    pdf_to_excel env inp (some out) (some sp) (some ep) (some hm) (some fm)
      = { printed := ["Runtime error: " ++ wrapMsg m], saved := none,
          opened := true, closed := true, escaped := none } := by
  simp [pdf_to_excel, afterOpen, runLoop, hfe, hpdf, hout, hop, hwb, hloop,
    handleOuter, caughtLine]

/-- C8 witness: a concrete text-extraction failure is wrapped and printed
as a `Runtime error:` line. -/
theorem loop_error_wrapped_witness :
    pdf_to_excel failEnvA ("in.pdf") (some ("out.xlsx")) (some 1) (some 1) (some 0) (some 0)
      = { printed := ["Runtime error: " ++ wrapMsg ("boom")], saved := none,
          opened := true, closed := true, escaped := none } :=
  loop_error_wrapped failEnvA ("in.pdf") ("out.xlsx") 1 1 0 0 [failPage] ("boom")
    rfl (by decide) (by decide) rfl rfl (by rfl)

/-- C9 counterexample: a null `start_page` does not propagate out of the
conversion routine — the `TypeError` raised by `start_page - 1` occurs
inside the loop-wrapping handler, is re-raised as `RuntimeError`, and is
caught and printed as a `Runtime error:` line (nothing escapes). -/
theorem null_start_page_is_caught :
    (pdf_to_excel onePageEnv ("in.pdf") (some ("out.xlsx")) none (some 1) (some 0) (some 0)).escaped
      = none
    ∧ (pdf_to_excel onePageEnv ("in.pdf") (some ("out.xlsx")) none (some 1) (some 0) (some 0)).printed
      = ["Runtime error: " ++ wrapMsg typeSubMsg] := by
  decide

/-- C9 (amended): with an existing `.pdf` input, a null `output_path`
raises an `AttributeError` and a null header or footer height raises a
`TypeError`, none of which is a caught kind, so those failures propagate
out of the conversion routine before any file is opened; but a null
`start_page` or `end_page` raises its `TypeError` inside the page loop,
where it is wrapped into a `RuntimeError` and caught — it is printed as a
`Runtime error:` line and does not propagate. -/
theorem null_args_behavior (env : Env) (inp out : String) (sp ep : Int) (hm fm : ℚ)
    (pages : List Page)
    (hfe : env.fileExists inp = true)
    (hpdf : pyEndsWith (pyLower inp) (".pdf") = true)
    (hout : pyEndsWith (pyLower out) (".xlsx") = true)
    (hop : env.openPdf inp = .ok pages)
    (hwb : env.newWorkbook = .ok ()) :
    pdf_to_excel env inp none (some sp) (some ep) (some hm) (some fm)
      = { printed := [], saved := none, opened := false, closed := false,
          escaped := some (.attributeError attrLowerMsg) }
    ∧ pdf_to_excel env inp (some out) (some sp) (some ep) none (some fm)
      = { printed := [], saved := none, opened := false, closed := false,
          escaped := some (.typeError typeMulMsg) }
    ∧ pdf_to_excel env inp (some out) (some sp) (some ep) (some hm) none
      = { printed := [], saved := none, opened := false, closed := false,
          escaped := some (.typeError typeMulMsg) }
    ∧ pdf_to_excel env inp (some out) none (some ep) (some hm) (some fm)
      = { printed := ["Runtime error: " ++ wrapMsg typeSubMsg], saved := none,
          opened := true, closed := true, escaped := none }
    ∧ pdf_to_excel env inp (some out) (some sp) none (some hm) (some fm)
      = { printed := ["Runtime error: " ++ wrapMsg typeRangeMsg], saved := none,
          opened := true, closed := true, escaped := none } := by
  refine ⟨?_, ?_, ?_, ?_, ?_⟩ <;>
    simp [pdf_to_excel, afterOpen, runLoop, hfe, hpdf, hout, hop, hwb,
      handleOuter, caughtLine]

/-- C9 witness: the five null-argument behaviors on a concrete two-page
environment. -/
theorem null_args_behavior_witness :
    pdf_to_excel happyEnv ("in.pdf") none (some 1) (some 1) (some 0) (some 0)
      = { printed := [], saved := none, opened := false, closed := false,
          escaped := some (.attributeError attrLowerMsg) }
    ∧ pdf_to_excel happyEnv ("in.pdf") (some ("out.xlsx")) (some 1) (some 1) none (some 0)
      = { printed := [], saved := none, opened := false, closed := false,
          escaped := some (.typeError typeMulMsg) }
    ∧ pdf_to_excel happyEnv ("in.pdf") (some ("out.xlsx")) (some 1) (some 1) (some 0) none
      = { printed := [], saved := none, opened := false, closed := false,
          escaped := some (.typeError typeMulMsg) }
    ∧ pdf_to_excel happyEnv ("in.pdf") (some ("out.xlsx")) none (some 1) (some 0) (some 0)
      = { printed := ["Runtime error: " ++ wrapMsg typeSubMsg], saved := none,
          opened := true, closed := true, escaped := none }
    ∧ pdf_to_excel happyEnv ("in.pdf") (some ("out.xlsx")) (some 1) none (some 0) (some 0)
      = { printed := ["Runtime error: " ++ wrapMsg typeRangeMsg], saved := none,
          opened := true, closed := true, escaped := none } :=
  null_args_behavior happyEnv ("in.pdf") ("out.xlsx") 1 1 0 0 [pageA, pageB]
    rfl (by decide) (by decide) rfl rfl

/-- C10: for a non-empty document, a `start_page ≤ 0` whose offset by one
stays within negative-index reach never triggers the out-of-range check (no
loop index yields an `IndexError` when `end_page` is within the document),
the first loop index is `start_page - 1` and its page fetch resolves by
Python negative indexing to position `length + start_page - 1` counted from
the front — i.e. offset `start_page - 1` from the end — and the text block
of that first iteration is labeled with the out-of-range page number
`"Page {start_page}:"` (e.g. `"Page 0:"` for `start_page = 0`). -/
theorem negative_start_page (pages : List Page) (hp fp : ℚ) (sp ep : Int)
    (hne : pages ≠ []) (hsp : sp ≤ 0) (hreach : 1 - (pages.length : Int) ≤ sp)
    (hle : sp ≤ ep) (hep : ep ≤ (pages.length : Int)) :
    (∀ i ∈ pageIndices sp ep, pyGet? pages i ≠ none)
    ∧ (pageIndices sp ep).head? = some (sp - 1)
    ∧ pyGet? pages (sp - 1) = pages.get? ((pages.length : Int) + sp - 1).toNat
    ∧ (∀ page, pyGet? pages (sp - 1) = some page →
        ∀ t, page.extractText (cropBox page.width page.height hp fp) = .ok (some t) →
          t ≠ "" →
          pageTextEntry pages hp fp (sp - 1)
            = ["Page " ++ toString sp ++ ":\n" ++ t]) := by
  have hlen : 0 < pages.length := List.length_pos.mpr hne
  refine ⟨?_, ?_, ?_, ?_⟩
  · intro i hi
    unfold pageIndices at hi
    rw [List.mem_map] at hi
    obtain ⟨j, hj, rfl⟩ := hi
    rw [List.mem_range] at hj
    have hj2 : (j : Int) < ep - sp + 1 := by omega
    clear hj
    unfold pyGet?
    by_cases h0 : 0 ≤ sp - 1 + (j : Int)
    · rw [if_pos h0]
      intro hnone
      rw [List.get?_eq_none] at hnone
      omega
    · rw [if_neg h0, if_pos (by omega)]
      intro hnone
      rw [List.get?_eq_none] at hnone
      omega
  · unfold pageIndices
    obtain ⟨k, hk⟩ : ∃ k, (ep - sp + 1).toNat = k + 1 := ⟨(ep - sp + 1).toNat - 1, by omega⟩
    rw [hk, List.range_succ_eq_map]
    simp
  · unfold pyGet?
    rw [if_neg (by omega), if_pos (by omega)]
    congr 1
    omega
  · intro page hpg t hext hne2
    unfold pageTextEntry
    simp only [hpg, hext]
    simp only [textEntryOf, if_neg hne2]
    have hspp : sp - 1 + 1 = sp := by omega
    rw [hspp]

/-- C10 witness: on a two-page document with `start_page = 0`,
`end_page = 1`, no loop index is out of range, the first index is `-1`, its
fetch resolves to the last page, and a non-empty text block of that first
iteration is labeled `"Page 0:"`. -/
theorem negative_start_page_witness :
    (∀ i ∈ pageIndices 0 1, pyGet? negPages i ≠ none)
    ∧ (pageIndices 0 1).head? = some (0 - 1)
    ∧ pyGet? negPages (0 - 1) = negPages.get? (((negPages.length : Int) + 0 - 1).toNat)
    ∧ (∀ page, pyGet? negPages (0 - 1) = some page →
        ∀ t, page.extractText (cropBox page.width page.height 0 0) = .ok (some t) →
          t ≠ "" →
          pageTextEntry negPages 0 0 (0 - 1)
            = ["Page " ++ toString (0 : Int) ++ ":\n" ++ t]) :=
  negative_start_page negPages 0 0 0 1 (by simp [negPages]) (by decide) (by decide)
    (by decide) (by decide)

end Pdf2xls
